import Mathlib

/-!
Verification of the firmware-update and device-bring-up subsystem of the
Azoteq IQS550/572/525 touch controller driver
(src/drivers/input/touchscreen/iqs5xx.c).

The driver is embedded shallowly.  Device and bus behaviour is abstracted
into explicit environment records (one field per independent device
response), and every driver function is a pure Lean function of its
environment that returns its result code (an `Int`, `0` for success and
negative errno values for failure), the new driver state where the C code
mutates it, and a trace of the bus transactions (and a few internal
milestones) it performed.  I2C transfer primitives return the message
count on success exactly as `i2c_transfer`/`i2c_master_send` do, so a
transfer result of `1` models a successful single-message transfer.
Timing (usleep/msleep) and locking (mutex, disable_irq) are not observable
in this embedding and are dropped; everything else follows the C source
line by line.
-/

set_option autoImplicit false

namespace Iqs5xx

/-! ### Constants from the head of iqs5xx.c -/

def IQS5XX_FW_FILE_LEN : Nat := 64
def IQS5XX_NUM_RETRIES : Nat := 10

def IQS5XX_PROD_NUM_IQS550 : Nat := 40
def IQS5XX_PROD_NUM_IQS572 : Nat := 58
def IQS5XX_PROD_NUM_IQS525 : Nat := 52
def IQS5XX_PROJ_NUM_A000 : Nat := 0
def IQS5XX_PROJ_NUM_B000 : Nat := 15
def IQS5XX_MAJOR_VER_MIN : Nat := 2

def IQS5XX_SW_INPUT_EVENT : Nat := 0x10
def IQS5XX_SETUP_COMPLETE : Nat := 0x40
def IQS5XX_EVENT_MODE : Nat := 0x01
def IQS5XX_TP_EVENT : Nat := 0x04

def IQS5XX_PROD_NUM : Nat := 0x0000
def IQS5XX_SYS_CTRL1 : Nat := 0x0432
def IQS5XX_SYS_CFG0 : Nat := 0x058E
def IQS5XX_SYS_CFG1 : Nat := 0x058F
def IQS5XX_CHKSM : Nat := 0x83C0
def IQS5XX_APP : Nat := 0x8400
def IQS5XX_CSTM : Nat := 0xBE00
def IQS5XX_PMAP_END : Nat := 0xBFFF
def IQS5XX_END_COMM : Nat := 0xEEEE

def IQS5XX_CHKSM_LEN : Nat := IQS5XX_APP - IQS5XX_CHKSM
def IQS5XX_APP_LEN : Nat := IQS5XX_CSTM - IQS5XX_APP
def IQS5XX_CSTM_LEN : Nat := IQS5XX_PMAP_END + 1 - IQS5XX_CSTM
def IQS5XX_PMAP_LEN : Nat := IQS5XX_PMAP_END + 1 - IQS5XX_CHKSM

def IQS5XX_REC_HDR_LEN : Nat := 4
def IQS5XX_REC_LEN_MAX : Nat := 255
def IQS5XX_REC_TYPE_DATA : Nat := 0x00
def IQS5XX_REC_TYPE_EOF : Nat := 0x01

def IQS5XX_BL_CMD_VER : Nat := 0x00
def IQS5XX_BL_CMD_READ : Nat := 0x01
def IQS5XX_BL_CMD_EXEC : Nat := 0x02
def IQS5XX_BL_CMD_CRC : Nat := 0x03
def IQS5XX_BL_BLK_LEN_MAX : Nat := 64
def IQS5XX_BL_ID : Nat := 0x0200
def IQS5XX_BL_STATUS_RESET : Nat := 0x00
def IQS5XX_BL_STATUS_AVAIL : Nat := 0xA5
def IQS5XX_BL_STATUS_NONE : Nat := 0xEE
def IQS5XX_BL_CRC_PASS : Nat := 0x00
def IQS5XX_BL_CRC_FAIL : Nat := 0x01
def IQS5XX_BL_ATTEMPTS : Nat := 3

/-! ### Errno values used by the driver (as positive magnitudes) -/

def EPERM : Int := 1
def EIOERR : Int := 5
def ENOMEM : Int := 12
def EINVAL : Int := 22
def ENAMETOOLONG : Int := 36

/-! ### Observable events

One event per bus transaction attempted by the driver (a transaction that
fails on the wire still appears: the attempt happened), plus a few internal
milestones needed to observe ordering (`allocPmap` for the image-buffer
kzalloc, `fwRequest` for the firmware request, `devInitRun` and
`axisInitRun` for entry into `iqs5xx_dev_init` / `iqs5xx_axis_init`,
`reset` for a hardware reset pulse). -/

inductive Event where
  | reset : Event
  | blCmdSend (bytes : List Nat) : Event
  | blCmdRecv (len : Nat) : Event
  | blkWrite (addr : Nat) (bytes : List Nat) : Event
  | blkRead (len : Nat) : Event
  | busWrite (reg : Nat) (bytes : List Nat) : Event
  | busRead (reg : Nat) (len : Nat) : Event
  | fwRequest (name : List Char) : Event
  | allocPmap : Event
  | axisInitRun : Event
  | devInitRun : Event
  deriving DecidableEq

/-- Response of the device to a single bootloader command exchange
(`iqs5xx_bl_cmd`): result of the command-write transfer, result of the
response-read transfer, the 16-bit bootloader ID returned to a Version
command, and the status byte returned to a CRC command. -/
structure BlResp where
  wr : Int
  rd : Int
  verId : Nat
  crc : Nat
  deriving DecidableEq

/-- The `msg_fail` fixup at the end of `iqs5xx_bl_cmd` (and the burst
read/write helpers): an `i2c_transfer` return that is not the expected
message count becomes `-EIO` when nonnegative and is passed through when
already a negative errno. -/
def msgFail (r : Int) : Int := if 0 ≤ r then -EIOERR else r

/-- Big-endian byte pair of a 16-bit value (`put_unaligned_be16`). -/
def be16 (v : Nat) : List Nat := [v / 256 % 256, v % 256]

/-- Shallow embedding of `iqs5xx_bl_cmd` (iqs5xx.c lines 247-327).
Sends the one-byte opcode (plus a big-endian address for Read), then for
Version and CRC reads back 2 and 1 bytes respectively; Execute and Read
perform no response read here.  A Version reply that is not
`IQS5XX_BL_ID` yields `-EINVAL`; a CRC reply other than pass yields
`-EIO`.  An unknown opcode is rejected with `-EINVAL` before any
transfer. -/
def iqs5xx_bl_cmd (resp : BlResp) (bl_cmd bl_addr : Nat) : Int × List Event :=
  if bl_cmd = IQS5XX_BL_CMD_VER ∨ bl_cmd = IQS5XX_BL_CMD_CRC ∨
     bl_cmd = IQS5XX_BL_CMD_EXEC ∨ bl_cmd = IQS5XX_BL_CMD_READ then
    let mbuf := if bl_cmd = IQS5XX_BL_CMD_READ then bl_cmd :: be16 bl_addr else [bl_cmd]
    let sendEv := Event.blCmdSend mbuf
    if resp.wr ≠ 1 then (msgFail resp.wr, [sendEv])
    else if bl_cmd = IQS5XX_BL_CMD_VER then
      if resp.rd ≠ 1 then (msgFail resp.rd, [sendEv, Event.blCmdRecv 2])
      else if resp.verId ≠ IQS5XX_BL_ID then (-EINVAL, [sendEv, Event.blCmdRecv 2])
      else (0, [sendEv, Event.blCmdRecv 2])
    else if bl_cmd = IQS5XX_BL_CMD_CRC then
      if resp.rd ≠ 1 then (msgFail resp.rd, [sendEv, Event.blCmdRecv 1])
      else if resp.crc ≠ IQS5XX_BL_CRC_PASS then (-EIOERR, [sendEv, Event.blCmdRecv 1])
      else (0, [sendEv, Event.blCmdRecv 1])
    else (0, [sendEv])
  else (-EINVAL, [])

/-- Inner retry loop of `iqs5xx_bl_open` (lines 341-345): up to `fuel`
Version probes with responses `probe j`, `probe (j+1)`, ...; stops early
(`done = true`) as soon as a probe returns `0` or `-EINVAL`, exactly the
`if (!error || error == -EINVAL) return error` of the source.  Returns the
last error, the accumulated events and whether it returned early. -/
def blProbeLoop (probe : Nat → BlResp) : Nat → Nat → Int → Int × List Event × Bool
  | _, 0, last => (last, [], false)
  | j, fuel + 1, _ =>
    let r := iqs5xx_bl_cmd (probe j) IQS5XX_BL_CMD_VER 0
    if r.1 = 0 ∨ r.1 = -EINVAL then (r.1, r.2, true)
    else
      let rest := blProbeLoop probe (j + 1) fuel r.1
      (rest.1, r.2 ++ rest.2.1, rest.2.2)

/-- Outer reset-attempt loop of `iqs5xx_bl_open` (lines 338-346): each
attempt pulses hardware reset and runs the probe loop; a probe loop that
returned early ends the whole sequence with its error. -/
def blOpenLoop (probe : Nat → Nat → BlResp) : Nat → Nat → Int → Int × List Event
  | _, 0, last => (last, [])
  | i, fuel + 1, last =>
    let r := blProbeLoop (probe i) 0 IQS5XX_NUM_RETRIES last
    if r.2.2 then (r.1, Event.reset :: r.2.1)
    else
      let rest := blOpenLoop probe (i + 1) fuel r.1
      (rest.1, (Event.reset :: r.2.1) ++ rest.2)

/-- Shallow embedding of `iqs5xx_bl_open` (lines 329-351).  `probe i j` is
the device's response to the `j`-th Version probe of the `i`-th reset
attempt. -/
def iqs5xx_bl_open (probe : Nat → Nat → BlResp) : Int × List Event :=
  blOpenLoop probe 0 IQS5XX_BL_ATTEMPTS 0

/-! ### Block write and read-back verify

The parsed firmware image (`pmap` in the C code) is modelled as a total
byte function `Nat → Nat` (index into the buffer to byte), which also
lets an out-of-bounds `memcpy` by the parser be represented; the parser
additionally reports the exact list of offsets it writes. -/

/-- The 64 bytes `pmap_data + off .. off + 63` handed to one block
transfer (the `memcpy` into `mbuf` in `iqs5xx_bl_write`, and the
reference side of the `memcmp` in `iqs5xx_bl_verify`). -/
def readBlock (pmap_data : Nat → Nat) (off : Nat) : List Nat :=
  (List.range IQS5XX_BL_BLK_LEN_MAX).map (fun t => pmap_data (off + t))

/-- Block loop of `iqs5xx_bl_write` (lines 368-378): block `k` is sent to
16-bit address `bl_addr + 64*k` (truncated as `put_unaligned_be16` does);
`xfer k` is the `i2c_transfer` result for that block. -/
def blWriteLoop (xfer : Nat → Int) (bl_addr : Nat) (pmap_data : Nat → Nat) :
    Nat → Nat → Int × List Event
  | _, 0 => (0, [])
  | k, nblk + 1 =>
    let i := k * IQS5XX_BL_BLK_LEN_MAX
    let ev := Event.blkWrite ((bl_addr + i) % 0x10000) (readBlock pmap_data i)
    if xfer k ≠ 1 then (msgFail (xfer k), [ev])
    else
      let rest := blWriteLoop xfer bl_addr pmap_data (k + 1) nblk
      (rest.1, ev :: rest.2)

/-- Shallow embedding of `iqs5xx_bl_write` (lines 353-390): a length that
is not a multiple of the 64-byte block size is rejected with `-EINVAL`
before any transfer; otherwise the blocks are sent in ascending order.
Note the source performs no address-range check of any kind. -/
def iqs5xx_bl_write (xfer : Nat → Int) (bl_addr : Nat) (pmap_data : Nat → Nat)
    (pmap_len : Nat) : Int × List Event :=
  if pmap_len % IQS5XX_BL_BLK_LEN_MAX ≠ 0 then (-EINVAL, [])
  else blWriteLoop xfer bl_addr pmap_data 0 (pmap_len / IQS5XX_BL_BLK_LEN_MAX)

/-- Device responses for `iqs5xx_bl_verify`: per block `k`, the response
to the Read command, the result of the 64-byte read transfer, and the 64
bytes the device returns. -/
structure VerifyEnv where
  cmdResp : Nat → BlResp
  rdXfer : Nat → Int
  rdData : Nat → List Nat

/-- Block loop of `iqs5xx_bl_verify` (lines 407-422): Read command, then a
64-byte read transfer, then `memcmp` against the source image; a mismatch
is `-EIO`. -/
def blVerifyLoop (e : VerifyEnv) (bl_addr : Nat) (pmap_data : Nat → Nat) :
    Nat → Nat → Int × List Event
  | _, 0 => (0, [])
  | k, nblk + 1 =>
    let i := k * IQS5XX_BL_BLK_LEN_MAX
    let c := iqs5xx_bl_cmd (e.cmdResp k) IQS5XX_BL_CMD_READ (bl_addr + i)
    if c.1 ≠ 0 then (c.1, c.2)
    else
      let evs := c.2 ++ [Event.blkRead IQS5XX_BL_BLK_LEN_MAX]
      if e.rdXfer k ≠ 1 then (msgFail (e.rdXfer k), evs)
      else if (e.rdData k).take IQS5XX_BL_BLK_LEN_MAX ≠ readBlock pmap_data i then
        (-EIOERR, evs)
      else
        let rest := blVerifyLoop e bl_addr pmap_data (k + 1) nblk
        (rest.1, evs ++ rest.2)

/-- Shallow embedding of `iqs5xx_bl_verify` (lines 392-434): same
length-multiple gate as the block write, then per-block read-back and
compare. -/
def iqs5xx_bl_verify (e : VerifyEnv) (bl_addr : Nat) (pmap_data : Nat → Nat)
    (pmap_len : Nat) : Int × List Event :=
  if pmap_len % IQS5XX_BL_BLK_LEN_MAX ≠ 0 then (-EINVAL, [])
  else blVerifyLoop e bl_addr pmap_data 0 (pmap_len / IQS5XX_BL_BLK_LEN_MAX)

/-! ### Power state -/

/-- Results (errno after the burst-write retries) of the two register
writes made by `iqs5xx_set_state`. -/
structure StateEnv where
  wr1 : Int
  wr2 : Int

/-- Shallow embedding of `iqs5xx_set_state` (lines 436-465): a stored
bootloader status of reset/unknown returns success immediately with no
bus traffic at all; otherwise both writes are issued and the first
nonzero error (in program order) is returned.  The function never
modifies the stored status. -/
def iqs5xx_set_state (e : StateEnv) (bl_status state : Nat) : Int × List Event :=
  if bl_status = IQS5XX_BL_STATUS_RESET then (0, [])
  else
    let evs := [Event.busWrite IQS5XX_SYS_CTRL1 [state],
                Event.busWrite IQS5XX_END_COMM [0]]
    (if e.wr1 ≠ 0 then e.wr1 else e.wr2, evs)

/-! ### Firmware file parser -/

/-- Kernel `hex_to_bin`: value of one hexadecimal digit, either case. -/
def hex_to_bin (c : Char) : Option Nat :=
  if '0' ≤ c ∧ c ≤ '9' then some (c.toNat - 48)
  else if 'a' ≤ c ∧ c ≤ 'f' then some (c.toNat - 87)
  else if 'A' ≤ c ∧ c ≤ 'F' then some (c.toNat - 55)
  else none

/-- Kernel `hex2bin`: decode `count` bytes from `2*count` hex characters;
any non-hex character fails the whole call (the driver propagates that
failure as the record error). -/
def hex2bin : Nat → List Char → Option (List Nat)
  | 0, _ => some []
  | count + 1, c1 :: c2 :: rest =>
    match hex_to_bin c1, hex_to_bin c2 with
    | some hi, some lo => (hex2bin count rest).map (fun bs => (hi * 16 + lo) :: bs)
    | _, _ => none
  | _ + 1, _ => none

/-- The record checksum recomputation of lines 832-837: byte-sum of header
and payload in a `u8`, then two's-complement negation. -/
def iqs5xx_rec_chksm (rec_hdr rec_data : List Nat) : Nat :=
  let s := rec_data.foldl (fun a b => (a + b) % 256) (rec_hdr.foldl (fun a b => (a + b) % 256) 0)
  (256 - s) % 256

/-- The `memcpy(pmap + rec_addr - IQS5XX_CHKSM, rec_data, rec_len)` of
line 856, as a pointwise function update starting at `off`.  Offsets at or
beyond `IQS5XX_PMAP_LEN` represent writes past the end of the allocated
buffer. -/
def pmapWrite : (Nat → Nat) → Nat → List Nat → Nat → Nat
  | pmap, _, [] => pmap
  | pmap, off, b :: bs =>
    pmapWrite (fun idx => if idx = off then b else pmap idx) (off + 1) bs

/-- `fw.getD pos` with the C source's byte-at-pointer reading. -/
def chAt (fw : List Char) (pos : Nat) : Char := fw.getD pos ' '

/-- Slice of `n` characters of the firmware text starting at `pos`. -/
def listSlice (fw : List Char) (pos n : Nat) : List Char := (fw.drop pos).take n

/-- The skip-to-next-record scan of lines 872-876: advance `pos` until a
start marker or the end of the input. -/
def skipToColonGo (fw : List Char) : Nat → Nat → Nat
  | pos, 0 => pos
  | pos, f + 1 =>
    if pos < fw.length then
      (if chAt fw pos = ':' then pos else skipToColonGo fw (pos + 1) f)
    else pos

def skipToColon (fw : List Char) (pos : Nat) : Nat :=
  skipToColonGo fw pos (fw.length - pos)

/-- One pass of the do-while record loop of `iqs5xx_fw_file_parse`
(lines 783-877), driven by explicit fuel (each iteration consumes at
least 11 input characters, so `fw.length + 1` fuel can never run out).
Returns the parse error, the image buffer, and the list of buffer offsets
written by the record copies, in order. -/
def iqs5xx_parse_loop (fw : List Char) :
    Nat → Nat → Nat → (Nat → Nat) → List Nat → Int × (Nat → Nat) × List Nat
  | 0, _, _, pmap, offs => (0, pmap, offs)
  | fuel + 1, pos, rec_num, pmap, offs =>
    if pos + 11 > fw.length then (-EINVAL, pmap, offs)
    else if chAt fw pos ≠ ':' then (-EINVAL, pmap, offs)
    else
      match hex2bin IQS5XX_REC_HDR_LEN (listSlice fw (pos + 1) 8) with
      | none => (-EINVAL, pmap, offs)
      | some rec_hdr =>
        let rec_len := rec_hdr.getD 0 0
        let rec_addr := rec_hdr.getD 1 0 * 256 + rec_hdr.getD 2 0
        let rec_type := rec_hdr.getD 3 0
        if pos + 11 + rec_len * 2 > fw.length then (-EINVAL, pmap, offs)
        else
          match hex2bin rec_len (listSlice fw (pos + 9) (rec_len * 2)) with
          | none => (-EINVAL, pmap, offs)
          | some rec_data =>
            match hex2bin 1 (listSlice fw (pos + 9 + rec_len * 2) 2) with
            | none => (-EINVAL, pmap, offs)
            | some chk_bytes =>
              let rec_chksm := chk_bytes.getD 0 0
              if iqs5xx_rec_chksm rec_hdr rec_data ≠ rec_chksm ∧ rec_addr < IQS5XX_CSTM then
                (-EINVAL, pmap, offs)
              else
                let step :
                    Int × (Nat → Nat) × List Nat :=
                  if rec_type = IQS5XX_REC_TYPE_DATA then
                    if rec_addr < IQS5XX_CHKSM ∨ rec_addr > IQS5XX_PMAP_END then
                      (-EINVAL, pmap, offs)
                    else
                      (0, pmapWrite pmap (rec_addr - IQS5XX_CHKSM) rec_data,
                       offs ++ (List.range rec_len).map (fun t => rec_addr - IQS5XX_CHKSM + t))
                  else if rec_type = IQS5XX_REC_TYPE_EOF then (0, pmap, offs)
                  else (-EINVAL, pmap, offs)
                if step.1 ≠ 0 then step
                else if rec_type = IQS5XX_REC_TYPE_EOF then (0, step.2.1, step.2.2)
                else
                  iqs5xx_parse_loop fw fuel (skipToColon fw (pos + 11 + rec_len * 2))
                    (rec_num + 1) step.2.1 step.2.2

/-- Shallow embedding of `iqs5xx_fw_file_parse` (lines 754-882).  The
firmware request (`reject_firmware`, the deblobbed `request_firmware`) is
environment-provided: either the file contents or a request error to be
returned as-is.  The image buffer starts zeroed (`kzalloc`). -/
def iqs5xx_fw_file_parse (firmware : Except Int (List Char)) (fw_file : List Char) :
    Int × (Nat → Nat) × List Nat × List Event :=
  match firmware with
  | .error err => (err, fun _ => 0, [], [Event.fwRequest fw_file])
  | .ok fw =>
    let r := iqs5xx_parse_loop fw (fw.length + 1) 0 1 (fun _ => 0) []
    (r.1, r.2.1, r.2.2, [Event.fwRequest fw_file])

/-! ### Device bring-up (`iqs5xx_dev_init`) -/

/-- Device responses for one run of `iqs5xx_dev_init`.  `idRead` is the
outcome of the identity burst read; `openProbe` feeds any bootloader-open
attempt made from within `dev_init`.  `axisRet` is the result of
`iqs5xx_axis_init`: axis/input configuration is an external collaborator
of this core per the spec (input-event subsystem), so its outcome is a
single environment value.  The rest are the results of the SYS_CFG0 read
and the three register writes that follow. -/
structure DevInitEnv where
  idRead : Except Int (List Nat)
  openProbe : Nat → Nat → BlResp
  axisRet : Int
  cfg0Read : Except Int Nat
  cfg0Wr : Int
  cfg1Wr : Int
  endWr : Int

/-- Body of `iqs5xx_dev_init` after the identity burst read has been
issued (its entry events are factored out in `iqs5xx_dev_init` below):
fall back to a bootloader open when the read failed, apply the
prepend-zero addressing heuristic, validate product number, project
number, major version and bootloader status, run axis configuration and
the SYS_CFG0/SYS_CFG1/END_COMM writes, and only then store the reported
bootloader status. -/
def iqs5xx_dev_init_core (e : DevInitEnv) (bl_status : Nat) : Int × Nat × List Event :=
  match e.idRead with
  | .error _ =>
    let o := iqs5xx_bl_open e.openProbe
    (o.1, bl_status, o.2)
  | .ok b =>
    let v := if b.getD 0 0 > 0 then 0 :: b.take 6 else b.take 7
    let prod := v.getD 0 0 * 256 + v.getD 1 0
    let proj := v.getD 2 0 * 256 + v.getD 3 0
    let major := v.getD 4 0
    let bl_st := v.getD 6 0
    if ¬ (prod = IQS5XX_PROD_NUM_IQS550 ∨ prod = IQS5XX_PROD_NUM_IQS572 ∨
          prod = IQS5XX_PROD_NUM_IQS525) then
      (-EINVAL, bl_status, [])
    else if proj = IQS5XX_PROJ_NUM_A000 then
      let o := iqs5xx_bl_open e.openProbe
      (o.1, bl_status, o.2)
    else if proj ≠ IQS5XX_PROJ_NUM_B000 then
      (-EINVAL, bl_status, [])
    else if major < IQS5XX_MAJOR_VER_MIN then
      let o := iqs5xx_bl_open e.openProbe
      (o.1, bl_status, o.2)
    else if ¬ (bl_st = IQS5XX_BL_STATUS_AVAIL ∨ bl_st = IQS5XX_BL_STATUS_NONE) then
      (-EINVAL, bl_status, [])
    else
      let evA := [Event.axisInitRun]
      if e.axisRet ≠ 0 then (e.axisRet, bl_status, evA)
      else
        match e.cfg0Read with
        | .error err => (err, bl_status, evA ++ [Event.busRead IQS5XX_SYS_CFG0 1])
        | .ok val =>
          let val2 := (val ||| IQS5XX_SETUP_COMPLETE) &&& (0xFF ^^^ IQS5XX_SW_INPUT_EVENT)
          let evs1 := evA ++ [Event.busRead IQS5XX_SYS_CFG0 1,
                              Event.busWrite IQS5XX_SYS_CFG0 [val2]]
          if e.cfg0Wr ≠ 0 then (e.cfg0Wr, bl_status, evs1)
          else
            let evs2 := evs1 ++ [Event.busWrite IQS5XX_SYS_CFG1 [IQS5XX_TP_EVENT ||| IQS5XX_EVENT_MODE]]
            if e.cfg1Wr ≠ 0 then (e.cfg1Wr, bl_status, evs2)
            else
              let evs3 := evs2 ++ [Event.busWrite IQS5XX_END_COMM [0]]
              if e.endWr ≠ 0 then (e.endWr, bl_status, evs3)
              else (0, bl_st, evs3)

/-- Shallow embedding of `iqs5xx_dev_init` (lines 601-700).  Returns
(error, new stored bl_status, events); the stored status is only changed
on full success. -/
def iqs5xx_dev_init (e : DevInitEnv) (bl_status : Nat) : Int × Nat × List Event :=
  let r := iqs5xx_dev_init_core e bl_status
  (r.1, r.2.1, [Event.devInitRun, Event.busRead IQS5XX_PROD_NUM 7] ++ r.2.2)

/-! ### Flash operation (`iqs5xx_fw_file_write`) -/

/-- Environment for one `iqs5xx_fw_file_write` run: the firmware request
outcome, whether the image-buffer kzalloc succeeds, the device responses
for the initial liveness probe, a bootloader open if needed, the block
writes, the CRC command, the verify pass and the Execute command, and the
environment for the unconditional `iqs5xx_dev_init` rerun. -/
structure FwEnv where
  firmware : Except Int (List Char)
  allocOk : Bool
  probeResp : BlResp
  openProbe : Nat → Nat → BlResp
  wrXfer : Nat → Int
  crcResp : BlResp
  vfy : VerifyEnv
  execResp : BlResp
  devInit : DevInitEnv

/-- Steps 2-6 of the flash sequence (lines 912-933): liveness probe with
fallback to the full open sequence, block write of the whole image
starting at the checksum region base, CRC command, read-back verify of
the user-customization region only, Execute.  Stops at the first
failure. -/
def iqs5xx_fw_seq (e : FwEnv) (pmap : Nat → Nat) : Int × List Event :=
  let p := iqs5xx_bl_cmd e.probeResp IQS5XX_BL_CMD_VER 0
  let opened : Int × List Event :=
    if p.1 ≠ 0 then
      let o := iqs5xx_bl_open e.openProbe
      (o.1, p.2 ++ o.2)
    else (0, p.2)
  if opened.1 ≠ 0 then opened
  else
    let w := iqs5xx_bl_write e.wrXfer IQS5XX_CHKSM pmap IQS5XX_PMAP_LEN
    if w.1 ≠ 0 then (w.1, opened.2 ++ w.2)
    else
      let c := iqs5xx_bl_cmd e.crcResp IQS5XX_BL_CMD_CRC 0
      if c.1 ≠ 0 then (c.1, opened.2 ++ w.2 ++ c.2)
      else
        let v := iqs5xx_bl_verify e.vfy IQS5XX_CSTM
                   (fun i => pmap (IQS5XX_CHKSM_LEN + IQS5XX_APP_LEN + i)) IQS5XX_CSTM_LEN
        if v.1 ≠ 0 then (v.1, opened.2 ++ w.2 ++ c.2 ++ v.2)
        else
          let x := iqs5xx_bl_cmd e.execResp IQS5XX_BL_CMD_EXEC 0
          (x.1, opened.2 ++ w.2 ++ c.2 ++ v.2 ++ x.2)

/-- The `err_reset` tail of `iqs5xx_fw_file_write` (lines 935-943): pulse
hardware reset if any step failed, then unconditionally rerun
`iqs5xx_dev_init` (the stored status is `IQS5XX_BL_STATUS_RESET` at this
point, set at line 910); the sequence error is overwritten by the
`dev_init` result, and a successful `dev_init` that still leaves the
stored status at reset yields `-EINVAL`. -/
def iqs5xx_fw_finish (e : FwEnv) (seqErr : Int) : Int × Nat × List Event :=
  let d := iqs5xx_dev_init e.devInit IQS5XX_BL_STATUS_RESET
  ((if d.1 = 0 ∧ d.2.1 = IQS5XX_BL_STATUS_RESET then -EINVAL else d.1),
   d.2.1,
   (if seqErr ≠ 0 then [Event.reset] else []) ++ d.2.2)

/-- Shallow embedding of `iqs5xx_fw_file_write` (lines 884-953): the
permission gate on a device that reports no bootloader support, the image
buffer allocation, the parse, then the flash sequence and the
reset-and-reidentify tail.  Returns (error, new stored bl_status,
events). -/
def iqs5xx_fw_file_write (e : FwEnv) (fw_file : List Char) (bl0 : Nat) :
    Int × Nat × List Event :=
  if bl0 = IQS5XX_BL_STATUS_NONE then (-EPERM, bl0, [])
  else if e.allocOk = false then (-ENOMEM, bl0, [Event.allocPmap])
  else
    let p := iqs5xx_fw_file_parse e.firmware fw_file
    if p.1 ≠ 0 then (p.1, bl0, Event.allocPmap :: p.2.2.2)
    else
      let s := iqs5xx_fw_seq e p.2.1
      let r := iqs5xx_fw_finish e s.1
      (r.1, r.2.1, Event.allocPmap :: p.2.2.2 ++ s.2 ++ r.2.2)

/-! ### Sysfs control-surface handler (`fw_file_store`) -/

/-- Environment for `fw_file_store`: the result the flash operation
returns for a given filename, whether the input device still needs to be
registered (`input_reg` in the source), and the registration result (both
external collaborators of this core). -/
structure StoreEnv where
  flashRet : List Char → Int
  inputReg : Bool
  regRet : Int

/-- Shallow embedding of `fw_file_store` (lines 955-996): reject an empty
write, strip exactly one trailing newline, enforce the 64-character
filename bound, call the flash operation, then register the input device
if needed.  Returns the result and the filename handed to the flash
operation (`none` when the flash operation was never reached). -/
def fw_file_store (e : StoreEnv) (buf : List Char) : Int × Option (List Char) :=
  let count := buf.length
  if count = 0 then (-EINVAL, none)
  else
    let len := if chAt buf (count - 1) = '\n' then count - 1 else count
    if len > IQS5XX_FW_FILE_LEN then (-ENAMETOOLONG, none)
    else
      let fw_file := buf.take len
      let err := e.flashRet fw_file
      if err ≠ 0 then (err, some fw_file)
      else if e.inputReg ∧ e.regRet ≠ 0 then (e.regRet, some fw_file)
      else ((count : Int), some fw_file)

/-! ### Hex-record text encoder

Inputs to the parser are quantified through this encoder when a claim
speaks about "a record with ..." fields; it produces exactly the textual
layout `iqs5xx_fw_file_parse` consumes (start marker, two hex characters
per byte). -/

/-- Uppercase hexadecimal digit character for a value below 16. -/
def hexDigitChar (d : Nat) : Char :=
  if d < 10 then Char.ofNat (48 + d) else Char.ofNat (55 + d)

/-- Two-character hexadecimal encoding of one byte. -/
def hexByte (b : Nat) : List Char := [hexDigitChar (b / 16), hexDigitChar (b % 16)]

/-- Hexadecimal encoding of a byte list. -/
def encodeBytes : List Nat → List Char
  | [] => []
  | b :: bs => hexByte b ++ encodeBytes bs

/-- One hex record as text: start marker, length byte, big-endian 16-bit
address, type byte, payload, recorded checksum byte. -/
def mkRec (len addr ty : Nat) (data : List Nat) (chk : Nat) : List Char :=
  ':' :: (hexByte len ++ hexByte (addr / 256) ++ hexByte (addr % 256) ++ hexByte ty ++
          encodeBytes data ++ hexByte chk)

/-! ### Concrete environments and inputs used by counterexamples and
witnesses -/

/-- A fully successful bootloader-command response. -/
def blRespOk : BlResp := ⟨1, 1, IQS5XX_BL_ID, IQS5XX_BL_CRC_PASS⟩

/-- A response whose CRC status byte reports failure. -/
def blRespCrcFail : BlResp := ⟨1, 1, IQS5XX_BL_ID, IQS5XX_BL_CRC_FAIL⟩

/-- A probe response with a well-formed exchange but a wrong bootloader
ID. -/
def blRespWrongId : BlResp := ⟨1, 1, 0x1234, IQS5XX_BL_CRC_PASS⟩

/-- A probe that never answers: the command write transfer itself fails
(`i2c_transfer` returns 0 messages transferred). -/
def blRespNoAnswer : BlResp := ⟨0, 0, 0, 0⟩

/-- Probe environment answering every Version probe with a wrong ID. -/
def probeWrongId : Nat → Nat → BlResp := fun _ _ => blRespWrongId

/-- Probe environment in which the device never responds at all. -/
def probeAllFail : Nat → Nat → BlResp := fun _ _ => blRespNoAnswer

/-- A minimal well-formed firmware file: a single EOF record at the
vendor's nonstandard address 0xFFFF with its correct checksum 0x01. -/
def fwEofFile : List Char := (":00FFFF0101").toList

/-- The same single-EOF-record file with a corrupted checksum byte. -/
def fwEofBadChksum : List Char := (":00FFFF0142").toList

/-- A firmware file whose data record starts at the last valid flash
address 0xBFFF with a 2-byte payload (checksum 0x40 is correct), followed
by the EOF record: parsing it writes one byte past the image buffer. -/
def fwOverflowFile : List Char := (":02BFFF00000040:00FFFF0101").toList

/-- A `dev_init` environment in which the device identifies as an IQS550,
project B000, version 2.0, bootloader available, and all configuration
steps succeed. -/
def devEnvOk : DevInitEnv :=
  ⟨.ok [0, 40, 0, 15, 2, 0, IQS5XX_BL_STATUS_AVAIL], probeAllFail, 0, .ok 0, 0, 0, 0⟩

/-- A verify environment that always succeeds on the wire and returns
all-zero blocks. -/
def vfyEnvZero : VerifyEnv := ⟨fun _ => blRespOk, fun _ => 1, fun _ => List.replicate 64 0⟩

/-- Flash environment for the CRC-failure scenario: parse succeeds (EOF
record only), probe and block writes succeed, the CRC command reports
failure, and the rerun of `dev_init` afterwards succeeds with bootloader
status available. -/
def envCrcFail : FwEnv :=
  ⟨.ok fwEofFile, true, blRespOk, probeAllFail, fun _ => 1, blRespCrcFail,
   vfyEnvZero, blRespOk, devEnvOk⟩

/-- Flash environment in which the firmware request itself fails with
`-ENOENT` (-2), so the flash operation returns before the programming
sequence. -/
def envFwMissing : FwEnv :=
  ⟨.error (-2), true, blRespOk, probeAllFail, fun _ => 1, blRespOk,
   vfyEnvZero, blRespOk, devEnvOk⟩

/-! ## Helper lemmas -/

/-- The transfer-failure fixup never yields success. -/
theorem msgFail_ne_zero (r : Int) : msgFail r ≠ 0 := by
  unfold msgFail EIOERR
  split <;> omega

/-- A Version command whose command write fails on the wire: one send
attempt, the fixed-up transfer error. -/
theorem bl_cmd_ver_wrfail (resp : BlResp) (h : resp.wr ≠ 1) :
    iqs5xx_bl_cmd resp IQS5XX_BL_CMD_VER 0 =
      (msgFail resp.wr, [Event.blCmdSend [IQS5XX_BL_CMD_VER]]) := by
  simp [iqs5xx_bl_cmd, IQS5XX_BL_CMD_VER, IQS5XX_BL_CMD_READ, h]

/-- A Version command with a well-formed exchange but an unrecognized
bootloader ID fails with `-EINVAL`. -/
theorem bl_cmd_ver_wrongid (resp : BlResp) (h1 : resp.wr = 1) (h2 : resp.rd = 1)
    (h3 : resp.verId ≠ IQS5XX_BL_ID) :
    iqs5xx_bl_cmd resp IQS5XX_BL_CMD_VER 0 =
      (-EINVAL, [Event.blCmdSend [IQS5XX_BL_CMD_VER], Event.blCmdRecv 2]) := by
  simp [iqs5xx_bl_cmd, IQS5XX_BL_CMD_VER, IQS5XX_BL_CMD_READ, h1, h2, h3]

/-- Every run of `iqs5xx_dev_init` starts by recording its entry. -/
theorem devInitRun_mem (e : DevInitEnv) (st : Nat) :
    Event.devInitRun ∈ (iqs5xx_dev_init e st).2.2 := by
  simp [iqs5xx_dev_init]

/-! ## Claim theorems -/

set_option maxRecDepth 100000

/-- C6: invoking the flash operation while the stored bootloader status
reports no bootloader support fails with `-EPERM` and an empty trace: no
firmware request (image parsing), no image-buffer allocation and no bus
transaction takes place, and the stored status is unchanged. -/
theorem C6_flash_requires_bootloader (e : FwEnv) (fw_file : List Char) :
    iqs5xx_fw_file_write e fw_file IQS5XX_BL_STATUS_NONE =
      (-EPERM, IQS5XX_BL_STATUS_NONE, []) := rfl

/-- C9: whenever the stored bootloader status is reset/unknown, the
power-state operation returns success immediately with an empty trace:
no bus write is performed, for either requested state, and the function
has no state output to change. -/
theorem C9_set_state_reset_noop (e : StateEnv) (state : Nat) :
    iqs5xx_set_state e IQS5XX_BL_STATUS_RESET state = (0, []) := rfl

/-- C7: an image length that is not an exact multiple of the 64-byte
block size makes both the block-wise write step and the read-back verify
step fail immediately with `-EINVAL` and an empty trace: zero bus writes,
respectively zero bus reads, are performed. -/
theorem C7_length_multiple_required (xfer : Nat → Int) (venv : VerifyEnv)
    (bl_addr : Nat) (pmap_data : Nat → Nat) (pmap_len : Nat)
    (h : pmap_len % IQS5XX_BL_BLK_LEN_MAX ≠ 0) :
    iqs5xx_bl_write xfer bl_addr pmap_data pmap_len = (-EINVAL, []) ∧
    iqs5xx_bl_verify venv bl_addr pmap_data pmap_len = (-EINVAL, []) := by
  constructor
  · simp [iqs5xx_bl_write, h]
  · simp [iqs5xx_bl_verify, h]

/-- C7 witness: a 63-byte image is rejected by both steps. -/
theorem C7_length_multiple_required_witness :
    (63 % IQS5XX_BL_BLK_LEN_MAX ≠ 0) ∧
    iqs5xx_bl_write (fun _ => 1) IQS5XX_CHKSM (fun _ => 0) 63 = (-EINVAL, []) ∧
    iqs5xx_bl_verify vfyEnvZero IQS5XX_CHKSM (fun _ => 0) 63 = (-EINVAL, []) :=
  ⟨by decide,
   C7_length_multiple_required (fun _ => 1) vfyEnvZero IQS5XX_CHKSM (fun _ => 0) 63 (by decide)⟩

/-- C8: evaluation of the parser at the failing input.  The firmware file
`fwOverflowFile` carries an accepted data record at the last valid flash
address 0xBFFF with a 2-byte payload; the parse succeeds, yet the second
copied byte lands at buffer offset `IQS5XX_PMAP_LEN` — one past the end
of the `IQS5XX_PMAP_LEN`-byte image buffer, an out-of-bounds write.  The
claim that the copy always stays within the buffer is thus refuted by the
code. -/
theorem C8_parser_oob_write :
    (iqs5xx_fw_file_parse (.ok fwOverflowFile) []).1 = 0 ∧
    (iqs5xx_fw_file_parse (.ok fwOverflowFile) []).2.2.1 =
      [IQS5XX_PMAP_LEN - 1, IQS5XX_PMAP_LEN] := by decide

/-- C1 counterexample: in `envCrcFail` the CRC-check step fails (the
device reports a CRC failure byte), yet the flash operation returns 0 —
success — to its caller, because the subsequent re-identification
succeeds and its result overwrites the step's error.  The reset-and-abort
path was taken (one reset pulse in the trace), but the failure was
replaced by a success result. -/
theorem C1_counterexample :
    (iqs5xx_bl_cmd envCrcFail.crcResp IQS5XX_BL_CMD_CRC 0).1 ≠ 0 ∧
    (iqs5xx_fw_file_write envCrcFail fwEofFile IQS5XX_BL_STATUS_AVAIL).1 = 0 ∧
    (iqs5xx_fw_file_write envCrcFail fwEofFile IQS5XX_BL_STATUS_AVAIL).2.2.count
      Event.reset = 1 := by decide

/-- C2 counterexample: a single-record file whose EOF record sits at the
vendor's address 0xFFFF — outside the user-customization region
0xBE00..0xBFFF — with a corrupted recorded checksum (0x42 instead of the
correct 0x01).  The claim requires such a parse to fail; it succeeds,
because the source's leniency test is `rec_addr < 0xBE00`, not
membership in the region. -/
theorem C2_counterexample :
    (iqs5xx_fw_file_parse (.ok fwEofBadChksum) []).1 = 0 ∧
    iqs5xx_rec_chksm [0x00, 0xFF, 0xFF, 0x01] [] ≠ 0x42 ∧
    IQS5XX_PMAP_END < 0xFFFF := by decide

/-- C3 counterexample: when the very first Version probe answers with a
wrong bootloader ID, the open sequence returns `-EINVAL` immediately
after a single reset and a single probe — it does not keep probing or
cycle reset further, contrary to the claim. -/
theorem C3_counterexample :
    iqs5xx_bl_open probeWrongId =
      (-EINVAL, [Event.reset, Event.blCmdSend [IQS5XX_BL_CMD_VER], Event.blCmdRecv 2]) ∧
    (iqs5xx_bl_open probeWrongId).2.count Event.reset = 1 := by decide

/-- C4 counterexample: a flash invocation whose firmware request fails
returns the request error without ever re-running the identification
sequence, so the mode is not re-resolved after this call. -/
theorem C4_counterexample :
    (iqs5xx_fw_file_write envFwMissing fwEofFile IQS5XX_BL_STATUS_AVAIL).1 ≠ 0 ∧
    Event.devInitRun ∉
      (iqs5xx_fw_file_write envFwMissing fwEofFile IQS5XX_BL_STATUS_AVAIL).2.2 := by decide

/-- C5 counterexample: a block write whose start address 0xC000 plus the
64-byte block size lies beyond the end of the flash region (0xBFFF) is
not rejected: the block transfer is performed on the bus and the call
returns success. -/
theorem C5_counterexample :
    (iqs5xx_bl_write (fun _ => 1) 0xC000 (fun _ => 0) 64).1 = 0 ∧
    (iqs5xx_bl_write (fun _ => 1) 0xC000 (fun _ => 0) 64).2 =
      [Event.blkWrite 0xC000 (List.replicate 64 0)] ∧
    IQS5XX_PMAP_END + 1 < 0xC000 + IQS5XX_BL_BLK_LEN_MAX := by decide

/-- C10: in the firmware-file control write handler, the empty-input
check precedes newline stripping and exactly one trailing newline is
stripped before the 64-character filename bound is enforced.  Hence: a
zero-length write is rejected with `-EINVAL` before any flash attempt; a
65-byte buffer ending in a newline passes the length check and reaches
the flash operation with the 64-byte prefix as filename; a 65-byte buffer
not ending in a newline is rejected with `-ENAMETOOLONG` before any flash
attempt; a buffer holding only a newline reaches the flash operation with
an empty filename; and a 66-byte buffer ending in two newlines is still
rejected (only one newline is stripped). -/
theorem C10_store_newline_and_length (e : StoreEnv) (buf : List Char) :
    (buf.length = 0 → fw_file_store e buf = (-EINVAL, none)) ∧
    (buf.length = 65 → chAt buf 64 = '\n' →
      (fw_file_store e buf).2 = some (buf.take 64)) ∧
    (buf.length = 65 → chAt buf 64 ≠ '\n' →
      fw_file_store e buf = (-ENAMETOOLONG, none)) ∧
    (buf = ['\n'] → (fw_file_store e buf).2 = some []) ∧
    (buf.length = 66 → chAt buf 65 = '\n' → chAt buf 64 = '\n' →
      fw_file_store e buf = (-ENAMETOOLONG, none)) := by
  refine ⟨?_, ?_, ?_, ?_, ?_⟩
  · intro h0
    simp [fw_file_store, h0]
  · intro h65 hnl
    simp only [fw_file_store, h65, hnl]
    norm_num [IQS5XX_FW_FILE_LEN]
    split_ifs <;> rfl
  · intro h65 hnl
    simp only [fw_file_store, h65]
    rw [if_neg hnl]
    norm_num [IQS5XX_FW_FILE_LEN]
  · intro hb
    subst hb
    simp only [fw_file_store]
    norm_num [IQS5XX_FW_FILE_LEN, chAt]
    split_ifs <;> rfl
  · intro h66 hnl _
    simp only [fw_file_store, h66, hnl]
    norm_num [IQS5XX_FW_FILE_LEN]

/-- C10 witness: the five cases at concrete buffers. -/
theorem C10_store_newline_and_length_witness :
    fw_file_store ⟨fun _ => 0, false, 0⟩ [] = (-EINVAL, none) ∧
    (fw_file_store ⟨fun _ => 0, false, 0⟩ (List.replicate 64 'a' ++ ['\n'])).2 =
      some ((List.replicate 64 'a' ++ ['\n']).take 64) ∧
    fw_file_store ⟨fun _ => 0, false, 0⟩ (List.replicate 65 'a') = (-ENAMETOOLONG, none) ∧
    (fw_file_store ⟨fun _ => 0, false, 0⟩ ['\n']).2 = some [] ∧
    fw_file_store ⟨fun _ => 0, false, 0⟩ (List.replicate 64 'a' ++ ['\n', '\n']) =
      (-ENAMETOOLONG, none) :=
  ⟨(C10_store_newline_and_length ⟨fun _ => 0, false, 0⟩ []).1 (by decide),
   (C10_store_newline_and_length ⟨fun _ => 0, false, 0⟩ _).2.1 (by decide) (by decide),
   (C10_store_newline_and_length ⟨fun _ => 0, false, 0⟩ _).2.2.1 (by decide) (by decide),
   (C10_store_newline_and_length ⟨fun _ => 0, false, 0⟩ _).2.2.2.1 rfl,
   (C10_store_newline_and_length ⟨fun _ => 0, false, 0⟩ _).2.2.2.2 (by decide) (by decide) (by decide)⟩

/-- One-step unfolding of the probe loop at a successor fuel value. -/
theorem blProbeLoop_succ (probe : Nat → BlResp) (j fuel : Nat) (last : Int) :
    blProbeLoop probe j (fuel + 1) last =
      (if (iqs5xx_bl_cmd (probe j) IQS5XX_BL_CMD_VER 0).1 = 0 ∨
          (iqs5xx_bl_cmd (probe j) IQS5XX_BL_CMD_VER 0).1 = -EINVAL then
         ((iqs5xx_bl_cmd (probe j) IQS5XX_BL_CMD_VER 0).1,
          (iqs5xx_bl_cmd (probe j) IQS5XX_BL_CMD_VER 0).2, true)
       else
         ((blProbeLoop probe (j + 1) fuel (iqs5xx_bl_cmd (probe j) IQS5XX_BL_CMD_VER 0).1).1,
          (iqs5xx_bl_cmd (probe j) IQS5XX_BL_CMD_VER 0).2 ++
            (blProbeLoop probe (j + 1) fuel (iqs5xx_bl_cmd (probe j) IQS5XX_BL_CMD_VER 0).1).2.1,
          (blProbeLoop probe (j + 1) fuel (iqs5xx_bl_cmd (probe j) IQS5XX_BL_CMD_VER 0).1).2.2)) :=
  rfl

/-- One-step unfolding of the reset-attempt loop at a successor fuel
value. -/
theorem blOpenLoop_succ (probe : Nat → Nat → BlResp) (i fuel : Nat) (last : Int) :
    blOpenLoop probe i (fuel + 1) last =
      (if (blProbeLoop (probe i) 0 IQS5XX_NUM_RETRIES last).2.2 then
         ((blProbeLoop (probe i) 0 IQS5XX_NUM_RETRIES last).1,
          Event.reset :: (blProbeLoop (probe i) 0 IQS5XX_NUM_RETRIES last).2.1)
       else
         ((blOpenLoop probe (i + 1) fuel (blProbeLoop (probe i) 0 IQS5XX_NUM_RETRIES last).1).1,
          (Event.reset :: (blProbeLoop (probe i) 0 IQS5XX_NUM_RETRIES last).2.1) ++
            (blOpenLoop probe (i + 1) fuel (blProbeLoop (probe i) 0 IQS5XX_NUM_RETRIES last).1).2)) :=
  rfl

/-- Probe loop under total silence: when none of the `f + 1` probes gets
an answer on the wire (and none of the fixed-up errors collides with
`-EINVAL`), the loop runs all of them, emits one send attempt each, and
reports the last fixed-up transfer error without stopping early. -/
theorem blProbeLoop_all_fail (probe : Nat → BlResp) :
    ∀ (f j : Nat) (last : Int),
      (∀ k, k ≤ f → (probe (j + k)).wr ≠ 1 ∧ msgFail (probe (j + k)).wr ≠ -EINVAL) →
      blProbeLoop probe j (f + 1) last =
        (msgFail (probe (j + f)).wr,
         List.replicate (f + 1) (Event.blCmdSend [IQS5XX_BL_CMD_VER]), false) := by
  intro f
  induction f with
  | zero =>
    intro j last h
    have h0 := h 0 (Nat.le_refl 0)
    simp only [Nat.add_zero] at h0
    rw [blProbeLoop_succ, bl_cmd_ver_wrfail (probe j) h0.1]
    rw [if_neg (by simp [msgFail_ne_zero, h0.2])]
    simp [blProbeLoop]
  | succ f ih =>
    intro j last h
    have h0 := h 0 (Nat.zero_le _)
    simp only [Nat.add_zero] at h0
    have hshift : ∀ k, k ≤ f →
        (probe (j + 1 + k)).wr ≠ 1 ∧ msgFail (probe (j + 1 + k)).wr ≠ -EINVAL := by
      intro k hk
      have hkk := h (k + 1) (by omega)
      have harith : j + (k + 1) = j + 1 + k := by omega
      rw [harith] at hkk
      exact hkk
    have hrec := ih (j + 1) (msgFail (probe j).wr) hshift
    have harith2 : j + 1 + f = j + (f + 1) := by omega
    rw [harith2] at hrec
    rw [blProbeLoop_succ, bl_cmd_ver_wrfail (probe j) h0.1]
    rw [if_neg (by simp [msgFail_ne_zero, h0.2])]
    simp [hrec, List.replicate_succ]

/-- Reset-attempt loop under total silence: all `f + 1` reset attempts
run their full 10 probes, and the final error is the last probe's
fixed-up transfer error. -/
theorem blOpenLoop_all_fail (probe : Nat → Nat → BlResp) :
    ∀ (f i : Nat) (last : Int),
      (∀ a j, a ≤ f → j < IQS5XX_NUM_RETRIES →
        (probe (i + a) j).wr ≠ 1 ∧ msgFail (probe (i + a) j).wr ≠ -EINVAL) →
      (blOpenLoop probe i (f + 1) last).1 = msgFail (probe (i + f) 9).wr ∧
      (blOpenLoop probe i (f + 1) last).2.count Event.reset = f + 1 ∧
      (blOpenLoop probe i (f + 1) last).2.count (Event.blCmdSend [IQS5XX_BL_CMD_VER]) =
        (f + 1) * IQS5XX_NUM_RETRIES := by
  have hNR : IQS5XX_NUM_RETRIES = 9 + 1 := rfl
  intro f
  induction f with
  | zero =>
    intro i last h
    have hi : ∀ k, k ≤ 9 → (probe i k).wr ≠ 1 ∧ msgFail (probe i k).wr ≠ -EINVAL := by
      intro k hk
      have hik := h 0 k (Nat.le_refl 0) (by rw [hNR]; omega)
      simpa using hik
    have hp := blProbeLoop_all_fail (probe i) 9 0 last (by simpa using hi)
    norm_num at hp
    rw [blOpenLoop_succ, hNR]
    norm_num [hp, List.count_cons, List.count_append, List.count_replicate, blOpenLoop]
    exact ⟨by decide, by decide⟩
  | succ f ih =>
    intro i last h
    have hi : ∀ k, k ≤ 9 → (probe i k).wr ≠ 1 ∧ msgFail (probe i k).wr ≠ -EINVAL := by
      intro k hk
      have hik := h 0 k (Nat.zero_le _) (by rw [hNR]; omega)
      simpa using hik
    have hp := blProbeLoop_all_fail (probe i) 9 0 last (by simpa using hi)
    norm_num at hp
    have hshift : ∀ a j, a ≤ f → j < IQS5XX_NUM_RETRIES →
        (probe (i + 1 + a) j).wr ≠ 1 ∧ msgFail (probe (i + 1 + a) j).wr ≠ -EINVAL := by
      intro a j ha hj
      have haj := h (a + 1) j (by omega) hj
      have harith : i + (a + 1) = i + 1 + a := by omega
      rw [harith] at haj
      exact haj
    have hrec := ih (i + 1) (msgFail (probe i 9).wr) hshift
    have harith2 : i + 1 + f = i + (f + 1) := by omega
    rw [harith2] at hrec
    rw [blOpenLoop_succ, hNR]
    norm_num [hp, List.count_cons, List.count_append, List.count_replicate,
              hrec.1, hrec.2.1, hrec.2.2]
    refine ⟨by decide, ?_⟩
    rw [if_neg (by decide)]
    simp only [IQS5XX_NUM_RETRIES]
    omega

/-- C3 (amended): the open sequence probes up to 10 times after each of
3 reset attempts only while the probes get no response on the wire (the
fixed-up transfer error also not colliding with `-EINVAL`); in that case
all 3 resets and all 30 probe attempts occur and the final transfer error
is returned.  A wrong-bootloader-ID response, by contrast, terminates the
sequence immediately with `-EINVAL` — after the reset and probe on which
it occurred, with no further probes or reset cycles. -/
theorem C3_amended (probe : Nat → Nat → BlResp) :
    ((∀ i j, i < IQS5XX_BL_ATTEMPTS → j < IQS5XX_NUM_RETRIES →
        (probe i j).wr ≠ 1 ∧ msgFail (probe i j).wr ≠ -EINVAL) →
      (iqs5xx_bl_open probe).1 = msgFail (probe 2 9).wr ∧
      (iqs5xx_bl_open probe).2.count Event.reset = IQS5XX_BL_ATTEMPTS ∧
      (iqs5xx_bl_open probe).2.count (Event.blCmdSend [IQS5XX_BL_CMD_VER]) =
        IQS5XX_BL_ATTEMPTS * IQS5XX_NUM_RETRIES) ∧
    ((probe 0 0).wr = 1 → (probe 0 0).rd = 1 → (probe 0 0).verId ≠ IQS5XX_BL_ID →
      iqs5xx_bl_open probe =
        (-EINVAL, [Event.reset, Event.blCmdSend [IQS5XX_BL_CMD_VER], Event.blCmdRecv 2])) := by
  constructor
  · intro h
    have hh : ∀ a j, a ≤ 2 → j < IQS5XX_NUM_RETRIES →
        (probe (0 + a) j).wr ≠ 1 ∧ msgFail (probe (0 + a) j).wr ≠ -EINVAL := by
      intro a j ha hj
      exact h (0 + a) j (by simp [IQS5XX_BL_ATTEMPTS]; omega) hj
    have hall := blOpenLoop_all_fail probe 2 0 0 hh
    norm_num at hall
    unfold iqs5xx_bl_open
    have hBA : IQS5XX_BL_ATTEMPTS = 3 := rfl
    rw [hBA]
    norm_num [hall.1, hall.2.1, hall.2.2, IQS5XX_BL_ATTEMPTS, IQS5XX_NUM_RETRIES]
  · intro h1 h2 h3
    have hc := bl_cmd_ver_wrongid (probe 0 0) h1 h2 h3
    have hNR : IQS5XX_NUM_RETRIES = 9 + 1 := rfl
    have hBA : IQS5XX_BL_ATTEMPTS = 2 + 1 := rfl
    unfold iqs5xx_bl_open
    rw [hBA, blOpenLoop_succ, hNR, blProbeLoop_succ, hc]
    simp

/-- C3 witness: with a device that never answers any probe, the open
sequence performs 3 resets and 30 probe attempts and fails with the
fixed-up transfer error. -/
theorem C3_amended_witness :
    (iqs5xx_bl_open probeAllFail).1 = msgFail (probeAllFail 2 9).wr ∧
    (iqs5xx_bl_open probeAllFail).2.count Event.reset = IQS5XX_BL_ATTEMPTS ∧
    (iqs5xx_bl_open probeAllFail).2.count (Event.blCmdSend [IQS5XX_BL_CMD_VER]) =
      IQS5XX_BL_ATTEMPTS * IQS5XX_NUM_RETRIES :=
  (C3_amended probeAllFail).1 (by
    intro i j _ _
    constructor
    · norm_num [probeAllFail, blRespNoAnswer]
    · norm_num [probeAllFail, blRespNoAnswer, msgFail, EIOERR, EINVAL])

/-- Every block transfer the write loop emits carries the address of one
of its blocks. -/
theorem blWriteLoop_blkWrite_addr (xfer : Nat → Int) (bl_addr : Nat) (d : Nat → Nat) :
    ∀ (nblk k a : Nat) (bs : List Nat),
      Event.blkWrite a bs ∈ (blWriteLoop xfer bl_addr d k nblk).2 →
      ∃ t, t < nblk ∧ a = (bl_addr + (k + t) * IQS5XX_BL_BLK_LEN_MAX) % 0x10000 := by
  intro nblk
  induction nblk with
  | zero =>
    intro k a bs h
    simp [blWriteLoop] at h
  | succ n ih =>
    intro k a bs h
    rw [show blWriteLoop xfer bl_addr d k (n + 1) =
      (if xfer k ≠ 1 then
        (msgFail (xfer k),
         [Event.blkWrite ((bl_addr + k * IQS5XX_BL_BLK_LEN_MAX) % 0x10000)
            (readBlock d (k * IQS5XX_BL_BLK_LEN_MAX))])
      else
        ((blWriteLoop xfer bl_addr d (k + 1) n).1,
         Event.blkWrite ((bl_addr + k * IQS5XX_BL_BLK_LEN_MAX) % 0x10000)
             (readBlock d (k * IQS5XX_BL_BLK_LEN_MAX)) ::
           (blWriteLoop xfer bl_addr d (k + 1) n).2)) from rfl] at h
    by_cases hx : xfer k ≠ 1
    · rw [if_pos hx] at h
      simp only [List.mem_singleton, Event.blkWrite.injEq] at h
      exact ⟨0, by omega, by rw [h.1]; norm_num⟩
    · rw [if_neg hx] at h
      simp only [List.mem_cons, Event.blkWrite.injEq] at h
      rcases h with h | h
      · exact ⟨0, by omega, by rw [h.1]; norm_num⟩
      · obtain ⟨t, ht, ha⟩ := ih (k + 1) a bs h
        refine ⟨t + 1, by omega, ?_⟩
        rw [ha, show k + 1 + t = k + (t + 1) from by omega]

/-- C5 (amended): the block-write routine performs no address-range check
at all — the only rejection before any bus transaction is of an image
length that is not a multiple of the 64-byte block size (a block
extending past the end of the flash region is transmitted like any other,
as the counterexample shows).  At the flash programmer's sole invocation
(start `IQS5XX_CHKSM`, length `IQS5XX_PMAP_LEN`), however, every block
address it puts on the bus satisfies address + 64 ≤ 0xBFFF + 1, so no
issued block ever extends past the end of the target region. -/
theorem C5_amended :
    (∀ (xfer : Nat → Int) (bl_addr : Nat) (d : Nat → Nat) (l : Nat),
       l % IQS5XX_BL_BLK_LEN_MAX ≠ 0 →
       iqs5xx_bl_write xfer bl_addr d l = (-EINVAL, [])) ∧
    (∀ (xfer : Nat → Int) (pmap : Nat → Nat) (a : Nat) (bs : List Nat),
       Event.blkWrite a bs ∈ (iqs5xx_bl_write xfer IQS5XX_CHKSM pmap IQS5XX_PMAP_LEN).2 →
       a + IQS5XX_BL_BLK_LEN_MAX ≤ IQS5XX_PMAP_END + 1) := by
  constructor
  · intro xfer bl_addr d l h
    simp [iqs5xx_bl_write, h]
  · intro xfer pmap a bs h
    rw [show iqs5xx_bl_write xfer IQS5XX_CHKSM pmap IQS5XX_PMAP_LEN =
          blWriteLoop xfer IQS5XX_CHKSM pmap 0 241 from rfl] at h
    obtain ⟨t, ht, ha⟩ := blWriteLoop_blkWrite_addr xfer IQS5XX_CHKSM pmap 241 0 a bs h
    rw [ha]
    have hlt : IQS5XX_CHKSM + (0 + t) * IQS5XX_BL_BLK_LEN_MAX < 0x10000 := by
      simp only [IQS5XX_CHKSM, IQS5XX_BL_BLK_LEN_MAX]
      omega
    rw [Nat.mod_eq_of_lt hlt]
    simp only [IQS5XX_CHKSM, IQS5XX_BL_BLK_LEN_MAX, IQS5XX_PMAP_END]
    omega

/-- C5 witness: a 63-byte image is rejected before any transfer, and the
first block of the real call site is addressed at the region base with
0x83C0 + 64 ≤ 0xC000. -/
theorem C5_amended_witness :
    iqs5xx_bl_write (fun _ => 1) 0 (fun _ => 0) 63 = (-EINVAL, []) ∧
    (Event.blkWrite IQS5XX_CHKSM (List.replicate 64 0) ∈
       (iqs5xx_bl_write (fun _ => 1) IQS5XX_CHKSM (fun _ => 0) IQS5XX_PMAP_LEN).2 ∧
     IQS5XX_CHKSM + IQS5XX_BL_BLK_LEN_MAX ≤ IQS5XX_PMAP_END + 1) := by
  have hmem : Event.blkWrite IQS5XX_CHKSM (List.replicate 64 0) ∈
      (iqs5xx_bl_write (fun _ => 1) IQS5XX_CHKSM (fun _ => 0) IQS5XX_PMAP_LEN).2 := by
    decide
  exact ⟨C5_amended.1 (fun _ => 1) 0 (fun _ => 0) 63 (by decide),
         hmem, C5_amended.2 (fun _ => 1) (fun _ => 0) IQS5XX_CHKSM
                 (List.replicate 64 0) hmem⟩

/-- C4 (amended): a flash invocation that passes the permission check,
the image-buffer allocation and the image parse always re-runs the
identification sequence afterwards, whether or not the programming steps
succeeded; a call that fails before the programming sequence (permission,
allocation or parse failure) returns that early error without re-running
identification.  In all cases a successful return implies the stored mode
is not left at reset/unknown. -/
theorem C4_amended (e : FwEnv) (fw_file : List Char) (bl0 : Nat) :
    ((iqs5xx_fw_file_write e fw_file bl0).1 = 0 →
      (iqs5xx_fw_file_write e fw_file bl0).2.1 ≠ IQS5XX_BL_STATUS_RESET) ∧
    (bl0 ≠ IQS5XX_BL_STATUS_NONE → e.allocOk = true →
      (iqs5xx_fw_file_parse e.firmware fw_file).1 = 0 →
      Event.devInitRun ∈ (iqs5xx_fw_file_write e fw_file bl0).2.2) := by
  constructor
  · intro h0
    simp only [iqs5xx_fw_file_write, iqs5xx_fw_finish] at h0 ⊢
    split_ifs at h0 ⊢ with h1 h2 h3 h4 h5
    · exact absurd h0 (by norm_num [EPERM])
    · exact absurd h0 (by norm_num [ENOMEM])
    · exact absurd (by simpa using h0) h3
    · exact absurd (show -EINVAL = (0 : Int) from by simpa using h0) (by norm_num [EINVAL])
    · exact absurd (show -EINVAL = (0 : Int) from by simpa using h0) (by norm_num [EINVAL])
    · intro hst
      exact h4 ⟨by simpa using h0, by simpa using hst⟩
    · intro hst
      exact h4 ⟨by simpa using h0, by simpa using hst⟩
  · intro h1 h2 h3
    simp only [iqs5xx_fw_file_write, iqs5xx_fw_finish]
    rw [if_neg h1, if_neg (by rw [h2]; simp), if_neg (by simp [h3])]
    simp [iqs5xx_dev_init]

/-- C4 witness: in the CRC-failure environment the call enters the
programming sequence, re-runs identification (the mode is re-resolved to
bootloader-available) and returns success with the mode not at reset. -/
theorem C4_amended_witness :
    (iqs5xx_fw_file_write envCrcFail fwEofFile IQS5XX_BL_STATUS_AVAIL).2.1 ≠
      IQS5XX_BL_STATUS_RESET ∧
    Event.devInitRun ∈
      (iqs5xx_fw_file_write envCrcFail fwEofFile IQS5XX_BL_STATUS_AVAIL).2.2 :=
  ⟨(C4_amended envCrcFail fwEofFile IQS5XX_BL_STATUS_AVAIL).1 (by decide),
   (C4_amended envCrcFail fwEofFile IQS5XX_BL_STATUS_AVAIL).2 (by decide) (by decide)
     (by decide)⟩

/-- C1 (amended): when one of the steps bootloader-open, block write, CRC
check, read-back verify or execute fails, the flash operation takes the
reset-and-abort path (a hardware reset pulse appears in the trace) and
then re-runs identification; its return value is determined solely by
that re-identification — the re-identification error, or `-EINVAL` when
re-identification succeeds with the stored mode still at reset.  The
failing step's own error is discarded, so the operation reports failure
unless re-identification succeeds with a non-reset mode, in which case it
reports success despite the failed step (as the counterexample shows for
a failed CRC check). -/
theorem C1_amended (e : FwEnv) (fw_file : List Char) (bl0 : Nat)
    (h1 : bl0 ≠ IQS5XX_BL_STATUS_NONE) (h2 : e.allocOk = true)
    (h3 : (iqs5xx_fw_file_parse e.firmware fw_file).1 = 0)
    (h4 : (iqs5xx_fw_seq e (iqs5xx_fw_file_parse e.firmware fw_file).2.1).1 ≠ 0) :
    (iqs5xx_fw_file_write e fw_file bl0).1 =
      (if (iqs5xx_dev_init e.devInit IQS5XX_BL_STATUS_RESET).1 = 0 ∧
          (iqs5xx_dev_init e.devInit IQS5XX_BL_STATUS_RESET).2.1 = IQS5XX_BL_STATUS_RESET
       then -EINVAL
       else (iqs5xx_dev_init e.devInit IQS5XX_BL_STATUS_RESET).1) ∧
    Event.reset ∈ (iqs5xx_fw_file_write e fw_file bl0).2.2 := by
  simp only [iqs5xx_fw_file_write, iqs5xx_fw_finish]
  rw [if_neg h1, if_neg (by rw [h2]; simp), if_neg (by simp [h3]), if_pos h4]
  simp

/-- C1 witness: the amended behaviour at the CRC-failure environment. -/
theorem C1_amended_witness :
    (iqs5xx_fw_file_write envCrcFail fwEofFile IQS5XX_BL_STATUS_AVAIL).1 =
      (if (iqs5xx_dev_init envCrcFail.devInit IQS5XX_BL_STATUS_RESET).1 = 0 ∧
          (iqs5xx_dev_init envCrcFail.devInit IQS5XX_BL_STATUS_RESET).2.1 =
            IQS5XX_BL_STATUS_RESET
       then -EINVAL
       else (iqs5xx_dev_init envCrcFail.devInit IQS5XX_BL_STATUS_RESET).1) ∧
    Event.reset ∈ (iqs5xx_fw_file_write envCrcFail fwEofFile IQS5XX_BL_STATUS_AVAIL).2.2 :=
  C1_amended envCrcFail fwEofFile IQS5XX_BL_STATUS_AVAIL (by decide) (by decide)
    (by decide) (by decide)

/-! ### Hex-record encoder / parser roundtrip lemmas (for C2) -/

theorem encodeBytes_length : ∀ (data : List Nat), (encodeBytes data).length = 2 * data.length
  | [] => rfl
  | _ :: bs => by
    simp [encodeBytes, hexByte, encodeBytes_length bs]
    omega

theorem hex_to_bin_hexDigitChar (d : Nat) (h : d < 16) :
    hex_to_bin (hexDigitChar d) = some d := by
  interval_cases d <;> decide

theorem hex2bin_hexByte_cons (b : Nat) (n : Nat) (rest : List Char) (hb : b < 256) :
    hex2bin (n + 1) (hexByte b ++ rest) = (hex2bin n rest).map (fun bs => b :: bs) := by
  have h1 : b / 16 < 16 := by omega
  have h2 : b % 16 < 16 := by omega
  have hv : b / 16 * 16 + b % 16 = b := by omega
  simp [hexByte, hex2bin, hex_to_bin_hexDigitChar _ h1, hex_to_bin_hexDigitChar _ h2, hv]

theorem hex2bin_encodeBytes :
    ∀ (data : List Nat), (∀ b ∈ data, b < 256) →
      hex2bin data.length (encodeBytes data) = some data
  | [], _ => rfl
  | b :: bs, h => by
    have hb : b < 256 := h b (List.mem_cons_self b bs)
    have hrest := hex2bin_encodeBytes bs (fun x hx => h x (List.mem_cons_of_mem b hx))
    simp [encodeBytes, List.length_cons, hex2bin_hexByte_cons b bs.length _ hb, hrest]

theorem hex2bin_one (z : Nat) (hz : z < 256) : hex2bin 1 (hexByte z) = some [z] := by
  have h := hex2bin_hexByte_cons z 0 [] hz
  simpa using h

theorem hex2bin_four (w x y z : Nat) (hw : w < 256) (hx : x < 256) (hy : y < 256)
    (hz : z < 256) :
    hex2bin 4 (hexByte w ++ hexByte x ++ hexByte y ++ hexByte z) = some [w, x, y, z] := by
  have h4 : hex2bin 4 (hexByte w ++ (hexByte x ++ (hexByte y ++ hexByte z))) =
      (hex2bin 3 (hexByte x ++ (hexByte y ++ hexByte z))).map (fun bs => w :: bs) :=
    hex2bin_hexByte_cons w 3 _ hw
  have h3 : hex2bin 3 (hexByte x ++ (hexByte y ++ hexByte z)) =
      (hex2bin 2 (hexByte y ++ hexByte z)).map (fun bs => x :: bs) :=
    hex2bin_hexByte_cons x 2 _ hx
  have h2 : hex2bin 2 (hexByte y ++ hexByte z) =
      (hex2bin 1 (hexByte z)).map (fun bs => y :: bs) := by
    have := hex2bin_hexByte_cons y 1 (hexByte z) hy
    simpa using this
  have h1 := hex2bin_one z hz
  simp only [List.append_assoc] at h4 ⊢
  rw [h4, h3, h2, h1]
  rfl

theorem mkRec_length (len addr ty chk : Nat) (data : List Nat) (hlen : data.length = len) :
    (mkRec len addr ty data chk).length = 11 + 2 * len := by
  simp [mkRec, hexByte, encodeBytes_length, hlen]
  omega

theorem mkRec_slice_hdr (len addr ty chk : Nat) (data : List Nat) :
    listSlice (mkRec len addr ty data chk) 1 8 =
      hexByte len ++ hexByte (addr / 256) ++ hexByte (addr % 256) ++ hexByte ty := by
  have hA : (hexByte len ++ hexByte (addr / 256) ++ hexByte (addr % 256) ++
      hexByte ty).length = 8 := by
    simp [hexByte]
  unfold listSlice mkRec
  rw [List.drop_one]
  simp only [List.tail_cons]
  rw [show hexByte len ++ hexByte (addr / 256) ++ hexByte (addr % 256) ++ hexByte ty ++
        encodeBytes data ++ hexByte chk =
      (hexByte len ++ hexByte (addr / 256) ++ hexByte (addr % 256) ++ hexByte ty) ++
        (encodeBytes data ++ hexByte chk) from by simp [List.append_assoc]]
  rw [← hA, List.take_left]

theorem mkRec_slice_data (len addr ty chk : Nat) (data : List Nat) (hlen : data.length = len) :
    listSlice (mkRec len addr ty data chk) 9 (len * 2) = encodeBytes data := by
  have hA : (hexByte len ++ hexByte (addr / 256) ++ hexByte (addr % 256) ++
      hexByte ty).length = 8 := by
    simp [hexByte]
  have hE : (encodeBytes data).length = len * 2 := by
    rw [encodeBytes_length, hlen]
    omega
  unfold listSlice mkRec
  rw [show (9 : Nat) = 1 + 8 from rfl, ← List.drop_drop, List.drop_one]
  simp only [List.tail_cons, ← List.append_assoc]
  rw [show hexByte len ++ hexByte (addr / 256) ++ hexByte (addr % 256) ++ hexByte ty ++
        encodeBytes data ++ hexByte chk =
      (hexByte len ++ hexByte (addr / 256) ++ hexByte (addr % 256) ++ hexByte ty) ++
        (encodeBytes data ++ hexByte chk) from by simp [List.append_assoc]]
  rw [← hA, List.drop_left, ← hE, List.take_left]

theorem mkRec_slice_chk (len addr ty chk : Nat) (data : List Nat) (hlen : data.length = len) :
    listSlice (mkRec len addr ty data chk) (9 + len * 2) 2 = hexByte chk := by
  have hA : (hexByte len ++ hexByte (addr / 256) ++ hexByte (addr % 256) ++ hexByte ty ++
      encodeBytes data).length = 8 + len * 2 := by
    simp [hexByte, encodeBytes_length, hlen]
    omega
  have hC : (hexByte chk).length = 2 := by simp [hexByte]
  unfold listSlice mkRec
  rw [show 9 + len * 2 = 1 + (8 + len * 2) from by omega, ← List.drop_drop, List.drop_one]
  simp only [List.tail_cons, ← List.append_assoc]
  rw [show hexByte len ++ hexByte (addr / 256) ++ hexByte (addr % 256) ++ hexByte ty ++
        encodeBytes data ++ hexByte chk =
      (hexByte len ++ hexByte (addr / 256) ++ hexByte (addr % 256) ++ hexByte ty ++
        encodeBytes data) ++ hexByte chk from by simp [List.append_assoc]]
  rw [← hA, List.drop_left, ← hC, List.take_length]

theorem skipToColon_at_end (fw : List Char) (pos : Nat) (h : fw.length ≤ pos) :
    skipToColon fw pos = pos := by
  unfold skipToColon
  rw [show fw.length - pos = 0 from by omega]
  rfl

/-- Full evaluation of the parser on a file holding exactly one
well-formed record: a record whose recomputed checksum mismatches the
recorded one is rejected exactly when its address is below the
user-customization base; otherwise the result depends only on the record
type (an EOF record ends the parse successfully, anything else leaves
the single-record file without an EOF record, which fails). -/
theorem parse_single_rec (fw_file : List Char) (len addr ty chk : Nat) (data : List Nat)
    (hlen : data.length = len) (hdata : ∀ b ∈ data, b < 256)
    (hl255 : len ≤ IQS5XX_REC_LEN_MAX) (haddr : addr ≤ 0xFFFF) (hty : ty < 256)
    (hchk : chk < 256) :
    (iqs5xx_fw_file_parse (.ok (mkRec len addr ty data chk)) fw_file).1 =
      if iqs5xx_rec_chksm [len, addr / 256, addr % 256, ty] data ≠ chk ∧
          addr < IQS5XX_CSTM then -EINVAL
      else if ty = IQS5XX_REC_TYPE_EOF then 0 else -EINVAL := by
  have hL := mkRec_length len addr ty chk data hlen
  have h255 : IQS5XX_REC_LEN_MAX = 255 := rfl
  rw [h255] at hl255
  have hlen256 : len < 256 := by omega
  have hhdr : hex2bin IQS5XX_REC_HDR_LEN (listSlice (mkRec len addr ty data chk) 1 8) =
      some [len, addr / 256, addr % 256, ty] := by
    rw [mkRec_slice_hdr]
    exact hex2bin_four len (addr / 256) (addr % 256) ty hlen256 (by omega) (by omega) hty
  have hpay : hex2bin len (listSlice (mkRec len addr ty data chk) 9 (len * 2)) =
      some data := by
    rw [mkRec_slice_data len addr ty chk data hlen, ← hlen]
    exact hex2bin_encodeBytes data hdata
  have hcs : hex2bin 1 (listSlice (mkRec len addr ty data chk) (9 + len * 2) 2) =
      some [chk] := by
    rw [mkRec_slice_chk len addr ty chk data hlen]
    exact hex2bin_one chk hchk
  show (iqs5xx_parse_loop (mkRec len addr ty data chk)
      ((mkRec len addr ty data chk).length + 1) 0 1 (fun _ => 0) []).1 = _
  rw [hL]
  simp only [iqs5xx_parse_loop]
  rw [hL]
  rw [if_neg (show ¬ (0 + 11 > 11 + 2 * len) from by omega)]
  rw [if_neg (show ¬ (chAt (mkRec len addr ty data chk) 0 ≠ ':') from by
        simp [chAt, mkRec])]
  simp only [Nat.zero_add]
  simp only [hhdr, List.getD_cons_zero, List.getD_cons_succ]
  rw [if_neg (show ¬ (11 + len * 2 > 11 + 2 * len) from by omega)]
  simp only [hpay, hcs, List.getD_cons_zero]
  rw [show addr / 256 * 256 + addr % 256 = addr from by omega]
  by_cases hC : iqs5xx_rec_chksm [len, addr / 256, addr % 256, ty] data ≠ chk ∧
      addr < IQS5XX_CSTM
  · rw [if_pos hC, if_pos hC]
  · rw [if_neg hC, if_neg hC]
    simp only [IQS5XX_REC_TYPE_DATA, IQS5XX_REC_TYPE_EOF]
    by_cases hEOF : ty = 1
    · norm_num [hEOF]
    · by_cases hDATA : ty = 0
      · by_cases hR : addr < IQS5XX_CHKSM ∨ addr > IQS5XX_PMAP_END
        · rw [if_pos hDATA, if_pos hR]
          norm_num [EINVAL]
          rw [if_neg hEOF]
        · rw [if_pos hDATA, if_neg hR]
          norm_num
          rw [if_neg hEOF, if_neg hEOF]
          rw [skipToColon_at_end _ _ (by rw [hL]; omega)]
          rw [show 11 + 2 * len = 10 + 2 * len + 1 from by omega]
          simp only [iqs5xx_parse_loop]
          rw [hL]
          rw [if_pos (show 11 + len * 2 + 11 > 11 + 2 * len from by omega)]
      · rw [if_neg hDATA, if_neg hEOF]
        norm_num [EINVAL]
        rw [if_neg hEOF]

/-- C2 (amended): for a well-formed record whose recomputed checksum
disagrees with its recorded checksum, the parse fails if and only if the
record's address lies below the user-customization region base 0xBE00;
at any address at or above 0xBE00 — inside the 0xBE00..0xBFFF region or
beyond it, such as the vendor's 0xFFFF EOF address — the recorded
checksum byte has no effect on the parse result at all, so the mismatch
is accepted and parsing continues. -/
theorem C2_amended (len addr ty chk chk' : Nat) (data : List Nat) (fw_file : List Char)
    (hlen : data.length = len) (hl255 : len ≤ IQS5XX_REC_LEN_MAX)
    (hdata : ∀ b ∈ data, b < 256) (haddr : addr ≤ 0xFFFF) (hty : ty < 256)
    (hchk : chk < 256) (hchk' : chk' < 256)
    (hmis : iqs5xx_rec_chksm [len, addr / 256, addr % 256, ty] data ≠ chk) :
    (addr < IQS5XX_CSTM →
      (iqs5xx_fw_file_parse (.ok (mkRec len addr ty data chk)) fw_file).1 = -EINVAL) ∧
    (IQS5XX_CSTM ≤ addr →
      (iqs5xx_fw_file_parse (.ok (mkRec len addr ty data chk)) fw_file).1 =
        (iqs5xx_fw_file_parse (.ok (mkRec len addr ty data chk')) fw_file).1) := by
  have h1 := parse_single_rec fw_file len addr ty chk data hlen hdata hl255 haddr hty hchk
  have h2 := parse_single_rec fw_file len addr ty chk' data hlen hdata hl255 haddr hty hchk'
  constructor
  · intro hlt
    rw [h1, if_pos ⟨hmis, hlt⟩]
  · intro hge
    have hnot : ¬ addr < IQS5XX_CSTM := Nat.not_lt.mpr hge
    have hc1 : ¬ (iqs5xx_rec_chksm [len, addr / 256, addr % 256, ty] data ≠ chk ∧
        addr < IQS5XX_CSTM) := fun h => hnot h.2
    have hc2 : ¬ (iqs5xx_rec_chksm [len, addr / 256, addr % 256, ty] data ≠ chk' ∧
        addr < IQS5XX_CSTM) := fun h => hnot h.2
    rw [h1, h2, if_neg hc1, if_neg hc2]

/-- C2 witness: a zero-payload record at 0x83C0 with a wrong checksum is
rejected, while at the EOF address 0xFFFF the recorded checksum byte does
not influence the result (0x42 wrong vs 0x13 wrong give the same
outcome). -/
theorem C2_amended_witness :
    (iqs5xx_fw_file_parse (.ok (mkRec 0 0x83C0 0 [] 0x00)) []).1 = -EINVAL ∧
    (iqs5xx_fw_file_parse (.ok (mkRec 0 0xFFFF 1 [] 0x42)) []).1 =
      (iqs5xx_fw_file_parse (.ok (mkRec 0 0xFFFF 1 [] 0x13)) []).1 :=
  ⟨(C2_amended 0 0x83C0 0 0x00 0x00 [] [] rfl (by decide) (by simp) (by decide) (by decide)
      (by decide) (by decide) (by decide)).1 (by decide),
   (C2_amended 0 0xFFFF 1 0x42 0x13 [] [] rfl (by decide) (by simp) (by decide) (by decide)
      (by decide) (by decide) (by decide)).2 (by decide)⟩

end Iqs5xx
